import Mathlib

set_option linter.unusedVariables false

/-!
Shallow embedding of `collector/collector.py` (E-Series performance
collector): the metric parameter lists, the drive-location resolution,
the three per-array collector bodies (system metrics, failure state,
major event log), the scheduler's sleep computation, and the tick's
three-phase fan-out structure.  Store reads and writes are modelled as
explicit list-valued state; upstream HTTP responses are inputs.
-/

namespace ESeriesCollector

/-- DRIVE_PARAMS from the source (lines 38-55). -/
def DRIVE_PARAMS : List String :=
  ["averageReadOpSize", "averageWriteOpSize", "combinedIOps",
   "combinedResponseTime", "combinedThroughput", "otherIOps", "readIOps",
   "readOps", "readPhysicalIOps", "readResponseTime", "readThroughput",
   "writeIOps", "writeOps", "writePhysicalIOps", "writeResponseTime",
   "writeThroughput"]

/-- SYSTEM_PARAMS from the source (lines 57-60). -/
def SYSTEM_PARAMS : List String :=
  ["maxCpuUtilization", "cpuAvgUtilization"]

/-- VOLUME_PARAMS from the source (lines 62-92). -/
def VOLUME_PARAMS : List String :=
  ["averageReadOpSize", "averageWriteOpSize", "combinedIOps",
   "combinedResponseTime", "combinedThroughput", "flashCacheHitPct",
   "flashCacheReadHitBytes", "flashCacheReadHitOps",
   "flashCacheReadResponseTime", "flashCacheReadThroughput", "otherIOps",
   "queueDepthMax", "queueDepthTotal", "readCacheUtilization",
   "readHitBytes", "readHitOps", "readIOps", "readOps", "readPhysicalIOps",
   "readResponseTime", "readThroughput", "writeCacheUtilization",
   "writeHitBytes", "writeHitOps", "writeIOps", "writeOps",
   "writePhysicalIOps", "writeResponseTime", "writeThroughput"]

/-- MEL_PARAMS from the source (lines 94-98). -/
def MEL_PARAMS : List String := ["id", "description", "location"]

/-- Python exception kinds relevant to the collector bodies.
`runtimeError` is the only kind the collectors catch (`except
RuntimeError`); `typeError` arises from subscripting / formatting `None`
(unresolved drive location); `connectionError` stands for the
requests-level exceptions an upstream call can raise. -/
inductive PyError
  | runtimeError
  | typeError
  | connectionError
deriving DecidableEq, Repr

/-- An InfluxDB field value: the collectors emit numbers, strings,
booleans, and `None` (serialised as null, never omitted). -/
inductive FieldVal
  | int (n : Int)
  | str (s : String)
  | bool (b : Bool)
  | null
deriving DecidableEq, Repr

/-- A point handed to `client.write_points`: measurement name, tag set,
field set, optional explicit timestamp (epoch seconds). -/
structure Point where
  measurement : String
  tags : List (String × String)
  fields : List (String × FieldVal)
  time : Option Int := none
deriving DecidableEq, Repr

/-- Python `dict.get(k)` on a dict built from a sequence of assignments
(later assignments overwrite earlier ones, hence the reversed search). -/
def pyDictGet (d : List (String × α)) (k : String) : Option α :=
  (d.reverse.find? (fun p => p.1 = k)).map (fun p => p.2)

/-- An `analysed-drive-statistics` record: a disk id plus the numeric
counters present in the upstream record (`stats.get(metric)` returns
`None` for absent keys, modelled by the lookup returning `none`). -/
structure DriveStat where
  diskId : String
  stats : List (String × Int)
deriving DecidableEq, Repr

/-- An `analysed-volume-statistics` record. -/
structure VolumeStat where
  volumeName : String
  stats : List (String × Int)
deriving DecidableEq, Repr

/-- One tray of the hardware inventory. -/
structure Tray where
  trayRef : String
  trayId : Int
deriving DecidableEq, Repr

/-- One drive of the hardware inventory (its physicalLocation). -/
structure Drive where
  driveRef : String
  trayRef : String
  slot : Int
deriving DecidableEq, Repr

/-- The hardware-inventory response: trays and drives. -/
structure HardwareInventory where
  trays : List Tray
  drives : List Drive
deriving DecidableEq, Repr

/-- `get_drive_location` (source lines 209-233): build trayRef→trayId,
then map each driveRef to `[tray_ids.get(trayRef), slot]`.  With numeric
tray ids the source's `tray_id != "none"` test is always true, so every
drive gets an entry; a drive whose trayRef is unknown gets tray `none`
(Python `None`). -/
def get_drive_location (hw : HardwareInventory) : List (String × Option Int × Int) :=
  let tray_ids := hw.trays.map (fun t => (t.trayRef, t.trayId))
  hw.drives.map (fun d => (d.driveRef, (pyDictGet tray_ids d.trayRef, d.slot)))

/-- `stats.get(metric)` used in the field-set dict comprehensions: a
present counter becomes a number, an absent one Python `None` (null). -/
def fieldOf (stats : List (String × Int)) (m : String) : FieldVal :=
  match pyDictGet stats m with
  | some n => .int n
  | none => .null

/-- Zero-padded fixed-width integer rendering, modelling Python's
`"{:02.0f}".format` / `"{:03.0f}".format` on whole numbers. -/
def zeroPad (w : Nat) (n : Int) : String :=
  let s := toString n
  String.mk (List.replicate (w - s.length) '0') ++ s

/-- Build one disk point (source lines 264-277).
`drive_locations.get(stats["diskId"])` returning `None` makes
`disk_location_info[0]` raise TypeError; a `None` tray id makes the
`"{:02.0f}".format` call raise TypeError. -/
def mkDiskItem (sys_id sys_name : String)
    (locs : List (String × Option Int × Int)) (st : DriveStat) :
    Except PyError Point :=
  match pyDictGet locs st.diskId with
  | none => .error .typeError
  | some (none, _) => .error .typeError
  | some (some tray, slot) =>
      .ok { measurement := "disks",
            tags := [("sys_id", sys_id), ("sys_name", sys_name),
                     ("sys_tray", zeroPad 2 tray),
                     ("sys_tray_slot", zeroPad 3 slot)],
            fields := DRIVE_PARAMS.map (fun m => (m, fieldOf st.stats m)) }

/-- The source's `for stats in drive_stats_list` loop appending disk
points to `json_body`; an exception aborts the whole loop. -/
def buildDiskItems (sys_id sys_name : String)
    (locs : List (String × Option Int × Int)) :
    List DriveStat → Except PyError (List Point)
  | [] => .ok []
  | st :: rest =>
    match mkDiskItem sys_id sys_name locs st with
    | .error e => .error e
    | .ok p =>
      match buildDiskItems sys_id sys_name locs rest with
      | .error e => .error e
      | .ok ps => .ok (p :: ps)

/-- The single system point (source lines 286-295). -/
def mkSysItem (sys_id sys_name : String) (systemStats : List (String × Int)) : Point :=
  { measurement := "systems",
    tags := [("sys_id", sys_id), ("sys_name", sys_name)],
    fields := SYSTEM_PARAMS.map (fun m => (m, fieldOf systemStats m)) }

/-- One volume point (source lines 307-321). -/
def mkVolItem (sys_id sys_name : String) (st : VolumeStat) : Point :=
  { measurement := "volumes",
    tags := [("sys_id", sys_id), ("sys_name", sys_name),
             ("vol_name", st.volumeName)],
    fields := VOLUME_PARAMS.map (fun m => (m, fieldOf st.stats m)) }

/-- The upstream responses `collect_storage_metrics` consumes for one
array: drive statistics, hardware inventory, system statistics, volume
statistics. -/
structure MetricsInput where
  driveStats : List DriveStat
  hw : HardwareInventory
  systemStats : List (String × Int)
  volumeStats : List VolumeStat
deriving Repr

/-- The `json_body` built by `collect_storage_metrics` (source lines
253-321): disk points, then the system point, then volume points; any
exception while building aborts the array's collection with no batch. -/
def collect_storage_metrics_body (sys_id sys_name : String)
    (inp : MetricsInput) : Except PyError (List Point) :=
  let locs := get_drive_location inp.hw
  match buildDiskItems sys_id sys_name locs inp.driveStats with
  | .error e => .error e
  | .ok diskItems =>
      .ok (diskItems ++ [mkSysItem sys_id sys_name inp.systemStats] ++
           inp.volumeStats.map (mkVolItem sys_id sys_name))

/-- The write decision of `collect_storage_metrics` (source lines
323-324): `write_points` is called only when `doNotPost` is unset.
`none` = no store write call, `some batch` = one write call. -/
def collect_storage_metrics_write (doNotPost : Bool) (sys_id sys_name : String)
    (inp : MetricsInput) : Except PyError (Option (List Point)) :=
  match collect_storage_metrics_body sys_id sys_name inp with
  | .error e => .error e
  | .ok pts => .ok (if doNotPost then none else some pts)

/-- Outcome of one (array, collector-kind) task as seen past the task's
own `try/except RuntimeError` wrapper: a normal return (with its write
call, if any), a caught-and-logged RuntimeError, or an exception that
escapes into the executor's future. -/
inductive TaskOutcome (α : Type)
  | ok (w : Option α)
  | loggedError
  | uncaught (e : PyError)
deriving DecidableEq, Repr

/-- The `try ... except RuntimeError: LOG.error(...)` wrapper every
collector body runs under (source lines 240/326, 335/385, 394/448):
only RuntimeError is caught and logged; every other exception
propagates into the future that `concurrent.futures.wait` never
re-raises. -/
def runTask (body : Except PyError (Option α)) : TaskOutcome α :=
  match body with
  | .ok w => .ok w
  | .error .runtimeError => .loggedError
  | .error e => .uncaught e

/-- Whether the task itself emitted an error log line for its outcome. -/
def outcomeLogsError : TaskOutcome α → Bool
  | .loggedError => true
  | _ => false

/-- The whole `collect_storage_metrics` task for one array. -/
def collect_storage_metrics_task (doNotPost : Bool) (sys_id sys_name : String)
    (inp : MetricsInput) : TaskOutcome (List Point) :=
  runTask (collect_storage_metrics_write doNotPost sys_id sys_name inp)

/-- One phase of the tick: the executor maps every array's input to its
task outcome; `concurrent.futures.wait` collects all futures and raises
nothing, so every array yields an outcome. -/
def phaseOutcomes (f : β → TaskOutcome α) (inputs : List β) : List (TaskOutcome α) :=
  inputs.map f

/-- A stored `major_event_log` row as the store returns it to the
collector: its array tag, the `id` field, and the point's timestamp
(which `collect_major_event_log` wrote from the event's `timeStamp`). -/
structure MelStored where
  sys_id : String
  id : Int
  time : Int
deriving DecidableEq, Repr

/-- The store's answer to `SELECT id FROM major_event_log WHERE
sys_id='...' ORDER BY time DESC LIMIT 1` (source line 351) on the rows
already filtered to the array: the row with the greatest timestamp
(first such row when timestamps tie), or nothing when no row exists. -/
def timeLatest : List MelStored → Option MelStored
  | [] => none
  | r :: rs => some (rs.foldl (fun acc x => if acc.time < x.time then x else acc) r)

/-- `start_from` computation (source lines 349-354): `-1` when the query
is empty, otherwise the returned `id` plus one. -/
def startFrom (rows : List MelStored) : Int :=
  match timeLatest rows with
  | none => -1
  | some r => r.id + 1

/-- The per-array starting sequence id: the query's `WHERE sys_id`
filter applied to the whole store, then `start_from`. -/
def collectMelStart (store : List MelStored) (sys_id : String) : Int :=
  startFrom (store.filter (fun r => r.sys_id = sys_id))

/-- One `mel-events` record as consumed by the collector. -/
structure MelEvent where
  id : Int
  description : String
  location : String
  eventType : String
  timeStamp : Int
  category : String
  priority : String
  critical : String
  ascq : String
  asc : String
deriving DecidableEq, Repr

/-- `mel.get(metric)` for the three MEL_PARAMS field names. -/
def melGet (ev : MelEvent) (m : String) : FieldVal :=
  if m = "id" then .int ev.id
  else if m = "description" then .str ev.description
  else if m = "location" then .str ev.location
  else .null

/-- One major_event_log point (source lines 361-379). -/
def mkMelItem (sys_id sys_name : String) (ev : MelEvent) : Point :=
  { measurement := "major_event_log",
    tags := [("sys_id", sys_id), ("sys_name", sys_name),
             ("event_type", ev.eventType), ("time_stamp", toString ev.timeStamp),
             ("category", ev.category), ("priority", ev.priority),
             ("critical", ev.critical), ("ascq", ev.ascq), ("asc", ev.asc)],
    fields := MEL_PARAMS.map (fun m => (m, melGet ev m)),
    time := some ev.timeStamp }

/-- The request parameters sent to the `mel-events` endpoint. -/
structure MelRequest where
  count : Int
  startSequenceNumber : Int
deriving DecidableEq, Repr

/-- `collect_major_event_log` (source lines 330-386): derive
`start_from` from the store, request up to 8192 events from there,
build one point per returned event, and call `write_points`
unconditionally — the `doNotPost` flag is never consulted in this
function.  Returns the upstream request made and the write call
(`some batch`; the source has no path that skips the call). -/
def collect_major_event_log (doNotPost : Bool) (store : List MelStored)
    (sys_id sys_name : String) (upstream : MelRequest → List MelEvent) :
    MelRequest × Option (List Point) :=
  let start_from := collectMelStart store sys_id
  let req : MelRequest := { count := 8192, startSequenceNumber := start_from }
  let mel_response := upstream req
  let json_body := mel_response.map (mkMelItem sys_id sys_name)
  (req, some json_body)

/-- An upstream failure record's identity tuple (source lines 413-415). -/
structure FailureTuple where
  failureType : String
  objectRef : String
  objectType : String
deriving DecidableEq, Repr

/-- A stored `failures` point: exactly the tags and field the collector
writes (source lines 426-439); the wall-clock first-observation
timestamp is not modelled.  The store query `SELECT * FROM failures
WHERE sys_id='...'` returns these records. -/
structure FailurePoint where
  sys_id : String
  sys_name : String
  failure_type : String
  object_ref : String
  object_type : String
  value : Bool
deriving DecidableEq, Repr

/-- The membership test of source line 421: the current failure's three
identity fields against a previously stored point's tags. -/
def matchesPoint (f : FailureTuple) (p : FailurePoint) : Bool :=
  decide (f.failureType = p.failure_type) &&
  decide (f.objectRef = p.object_ref) &&
  decide (f.objectType = p.object_type)

/-- The `found` flag of source lines 417-423: some previously stored
point has all three identity fields equal.  An empty query result
(falsy `if query:`) skips the loop, which coincides with `any` over the
empty list. -/
def failureSeen (pts : List FailurePoint) (f : FailureTuple) : Bool :=
  pts.any (matchesPoint f)

/-- The new-failure point built at source lines 426-439. -/
def mkFailureItem (sys_id sys_name : String) (f : FailureTuple) : FailurePoint :=
  { sys_id := sys_id, sys_name := sys_name,
    failure_type := f.failureType, object_ref := f.objectRef,
    object_type := f.objectType, value := true }

/-- Result of one `collect_system_state` run: the argument of the
`write_points` call (`some batch`; the call at source line 447 is
unconditional, outside any `if`), the store afterwards, and whether the
"Found N new failures" log line fired (only when the batch is
non-empty, source lines 444-446). -/
structure StateResult where
  writeCall : Option (List FailurePoint)
  newStore : List FailurePoint
  loggedCount : Bool
deriving DecidableEq, Repr

/-- `collect_system_state` (source lines 389-449): query all stored
failures for the array, keep only upstream failures whose identity
tuple is not already stored, and write that batch.  The `doNotPost`
flag is never consulted in this function. -/
def collect_system_state (doNotPost : Bool) (store : List FailurePoint)
    (sys_id sys_name : String) (upstream : List FailureTuple) : StateResult :=
  let stored := store.filter (fun p => p.sys_id = sys_id)
  let json_body :=
    (upstream.filter (fun f => !(failureSeen stored f))).map
      (mkFailureItem sys_id sys_name)
  { writeCall := some json_body,
    newStore := store ++ json_body,
    loggedCount := decide (0 < json_body.length) }

/-- Iterated ticks of failure-state collection for one array: each tick
sees the store as left by the previous tick and records its written
batch. -/
def runTicks (doNotPost : Bool) (store : List FailurePoint) (sys_id sys_name : String) :
    List (List FailureTuple) → List FailurePoint × List (List FailurePoint)
  | [] => (store, [])
  | u :: us =>
    let r := collect_system_state doNotPost store sys_id sys_name u
    let rest := runTicks doNotPost r.newStore sys_id sys_name us
    (rest.1, (r.writeCall.getD []) :: rest.2)

/-- How many points of a written batch carry a given identity tuple. -/
def countTuple (t : FailureTuple) (pts : List FailurePoint) : Nat :=
  pts.countP (matchesPoint t)

/-- The scheduler's end-of-iteration computation (source lines 515-529,
times in seconds as exact rationals): `wait_time = interval - elapsed`,
overridden to `elapsed` with an error log when `interval < elapsed`
(strictly).  Returns (sleep argument, whether the overrun log fired). -/
def scheduler_wait (intervalTime time_difference : ℚ) : ℚ × Bool :=
  let wait_time := intervalTime - time_difference
  if intervalTime < time_difference then (time_difference, true)
  else (wait_time, false)

/-- The three collector kinds the tick runs phases for. -/
inductive CollKind
  | metrics
  | state
  | mel
deriving DecidableEq, Repr

/-- One scheduling event of a tick: a task of the given kind for the
array at the given index starts (`isStart = true`) or completes. -/
structure TaskEvent where
  kind : CollKind
  sysIdx : Nat
  isStart : Bool
deriving DecidableEq, Repr

/-- The events one phase must contain: a start and a completion for
every array index below `n` (order within the phase is up to the
executor). -/
def phaseSchedule (n : Nat) : List (Nat × Bool) :=
  (List.range n).map (fun a => (a, true)) ++ (List.range n).map (fun a => (a, false))

/-- The event trace of one tick of the main loop (source lines
504-513): all metrics events, then — because `concurrent.futures.wait`
returns only after every submitted future finished — all failure-state
events, then all event-log events.  `e1, e2, e3` are the executor's
orderings within each phase. -/
def tickTrace (e1 e2 e3 : List (Nat × Bool)) : List TaskEvent :=
  e1.map (fun p => ⟨.metrics, p.1, p.2⟩) ++
  e2.map (fun p => ⟨.state, p.1, p.2⟩) ++
  e3.map (fun p => ⟨.mel, p.1, p.2⟩)

/-- The metric names defined for a measurement category. -/
def paramsFor (measurement : String) : List String :=
  if measurement = "disks" then DRIVE_PARAMS
  else if measurement = "systems" then SYSTEM_PARAMS
  else if measurement = "volumes" then VOLUME_PARAMS
  else if measurement = "major_event_log" then MEL_PARAMS
  else []

/-! Helper lemmas about the time-latest query model. -/

theorem foldlLatest_mem (rs : List MelStored) (a : MelStored) :
    rs.foldl (fun acc x => if acc.time < x.time then x else acc) a ∈ a :: rs := by
  induction rs generalizing a with
  | nil => simp
  | cons b bs ih =>
    simp only [List.foldl_cons]
    by_cases h : a.time < b.time
    · simp only [if_pos h]
      rcases List.mem_cons.mp (ih b) with hb | hmem
      · exact List.mem_cons_of_mem a (by simp [hb])
      · exact List.mem_cons_of_mem a (List.mem_cons_of_mem b hmem)
    · simp only [if_neg h]
      rcases List.mem_cons.mp (ih a) with ha | hmem
      · simp [ha]
      · exact List.mem_cons_of_mem a (List.mem_cons_of_mem b hmem)

theorem foldlLatest_time (rs : List MelStored) (a : MelStored) :
    a.time ≤ (rs.foldl (fun acc x => if acc.time < x.time then x else acc) a).time ∧
    ∀ x ∈ rs, x.time ≤ (rs.foldl (fun acc x => if acc.time < x.time then x else acc) a).time := by
  induction rs generalizing a with
  | nil => simp
  | cons b bs ih =>
    simp only [List.foldl_cons]
    by_cases h : a.time < b.time
    · simp only [if_pos h]
      refine ⟨le_trans (le_of_lt h) (ih b).1, ?_⟩
      intro x hx
      rcases List.mem_cons.mp hx with hx | hx
      · rw [hx]; exact (ih b).1
      · exact (ih b).2 x hx
    · simp only [if_neg h]
      refine ⟨(ih a).1, ?_⟩
      intro x hx
      rcases List.mem_cons.mp hx with hx | hx
      · rw [hx]; exact le_trans (le_of_not_lt h) (ih a).1
      · exact (ih a).2 x hx

theorem timeLatest_mem (rows : List MelStored) (r : MelStored)
    (h : timeLatest rows = some r) : r ∈ rows := by
  cases rows with
  | nil => simp [timeLatest] at h
  | cons a rs =>
    simp only [timeLatest, Option.some.injEq] at h
    have := foldlLatest_mem rs a
    rwa [h] at this

theorem timeLatest_isMax (rows : List MelStored) (r : MelStored)
    (h : timeLatest rows = some r) : ∀ x ∈ rows, x.time ≤ r.time := by
  cases rows with
  | nil => simp [timeLatest] at h
  | cons a rs =>
    simp only [timeLatest, Option.some.injEq] at h
    intro x hx
    rcases List.mem_cons.mp hx with hx | hx
    · rw [hx, ← h]; exact (foldlLatest_time rs a).1
    · rw [← h]; exact (foldlLatest_time rs a).2 x hx

/-- Claim C3 (amended): the scheduler sleeps `interval − elapsed` when
`elapsed < interval`; it warns and sleeps `elapsed` only when `elapsed`
STRICTLY exceeds `interval` (the source's `if CMD.intervalTime <
time_difference`); at `elapsed = interval` it sleeps 0 without warning;
the sleep argument is never negative for non-negative inputs. -/
theorem scheduler_sleep_correct (intervalTime time_difference : ℚ)
    (h0i : 0 ≤ intervalTime) (h0e : 0 ≤ time_difference) :
    (time_difference < intervalTime →
      scheduler_wait intervalTime time_difference =
        (intervalTime - time_difference, false)) ∧
    (intervalTime < time_difference →
      scheduler_wait intervalTime time_difference = (time_difference, true)) ∧
    (time_difference = intervalTime →
      scheduler_wait intervalTime time_difference = (0, false)) ∧
    0 ≤ (scheduler_wait intervalTime time_difference).1 := by
  by_cases h : intervalTime < time_difference
  · have hw : scheduler_wait intervalTime time_difference = (time_difference, true) := by
      simp [scheduler_wait, if_pos h]
    refine ⟨fun hlt => absurd (lt_trans h hlt) (lt_irrefl _), fun _ => hw,
      fun heq => absurd (heq ▸ h) (lt_irrefl _), by rw [hw]; exact h0e⟩
  · have hw : scheduler_wait intervalTime time_difference =
        (intervalTime - time_difference, false) := by
      simp [scheduler_wait, if_neg h]
    refine ⟨fun _ => hw, fun hlt => absurd hlt h,
      fun heq => by rw [hw, heq, sub_self], by rw [hw]; dsimp only; linarith [le_of_not_lt h]⟩

/-- Witness: elapsed 3 with interval 5 sleeps 2 with no warning;
elapsed 7 with interval 5 warns and sleeps 7. -/
theorem scheduler_sleep_correct_witness :
    scheduler_wait 5 3 = (2, false) ∧ scheduler_wait 5 7 = (7, true) :=
  ⟨by have h := (scheduler_sleep_correct 5 3 (by norm_num) (by norm_num)).1 (by norm_num)
      norm_num at h
      exact h,
   (scheduler_sleep_correct 5 7 (by norm_num) (by norm_num)).2.1 (by norm_num)⟩

/-- Counterexample to C3 as stated: at elapsed = interval = 5 the claim
demands a warning and a 5-second sleep, but the source's strict
comparison takes the other branch: no warning and a 0-second sleep. -/
theorem scheduler_sleep_boundary_cex :
    (5 : ℚ) ≤ 5 ∧ scheduler_wait 5 5 = (0, false) ∧
      scheduler_wait 5 5 ≠ (5, true) := by
  refine ⟨le_refl _, ?_, ?_⟩ <;> norm_num [scheduler_wait]

/-- Claim C2 (amended): the synchronizer's upstream request uses
`startSequenceNumber = K' + 1` where `K'` is the id of the
most-recently-timestamped stored record for the array (the source's
`ORDER BY time DESC LIMIT 1` query), and the sentinel `-1` when no
record is stored for the array. -/
theorem mel_start_sequence (doNotPost : Bool) (store : List MelStored)
    (sys_id sys_name : String) (upstream : MelRequest → List MelEvent) :
    (store.filter (fun x => x.sys_id = sys_id) = [] →
      (collect_major_event_log doNotPost store sys_id sys_name upstream).1.startSequenceNumber
        = -1) ∧
    (∀ r, timeLatest (store.filter (fun x => x.sys_id = sys_id)) = some r →
      (∀ x ∈ store.filter (fun x => x.sys_id = sys_id), x.time ≤ r.time) ∧
      (collect_major_event_log doNotPost store sys_id sys_name upstream).1.startSequenceNumber
        = r.id + 1) := by
  constructor
  · intro hnil
    simp [collect_major_event_log, collectMelStart, startFrom, hnil, timeLatest]
  · intro r hr
    refine ⟨timeLatest_isMax _ r hr, ?_⟩
    simp [collect_major_event_log, collectMelStart, startFrom, hr]

/-- Witness: an array with stored rows (id 3, time 10) and (id 7,
time 20) yields startSequenceNumber 8; an array with no rows yields -1. -/
theorem mel_start_sequence_witness :
    (collect_major_event_log false
        [⟨"A", 3, 10⟩, ⟨"A", 7, 20⟩] "A" "A" (fun _ => [])).1.startSequenceNumber = 7 + 1 ∧
    (collect_major_event_log false
        [⟨"B", 3, 10⟩] "A" "A" (fun _ => [])).1.startSequenceNumber = -1 :=
  ⟨((mel_start_sequence false [⟨"A", 3, 10⟩, ⟨"A", 7, 20⟩] "A" "A" (fun _ => [])).2
      ⟨"A", 7, 20⟩ (by decide)).2,
   (mel_start_sequence false [⟨"B", 3, 10⟩] "A" "A" (fun _ => [])).1 (by decide)⟩

/-- Counterexample to C2 as stated: with stored rows (id 5, time 10)
and (id 3, time 20) the maximum stored id is 5 (the id-5 row is stored
and the only other row has id 3), but the request uses
startSequenceNumber 4 (time-latest id 3, plus one), not 5 + 1. -/
theorem mel_start_sequence_cex :
    (MelStored.mk "A" 5 10) ∈ ([⟨"A", 5, 10⟩, ⟨"A", 3, 20⟩] : List MelStored) ∧
    (MelStored.mk "A" 3 20) ∈ ([⟨"A", 5, 10⟩, ⟨"A", 3, 20⟩] : List MelStored) ∧
    (collect_major_event_log false
        [⟨"A", 5, 10⟩, ⟨"A", 3, 20⟩] "A" "A" (fun _ => [])).1.startSequenceNumber = 4 ∧
    (collect_major_event_log false
        [⟨"A", 5, 10⟩, ⟨"A", 3, 20⟩] "A" "A" (fun _ => [])).1.startSequenceNumber ≠ 5 + 1 := by
  refine ⟨?_, ?_, ?_, ?_⟩ <;> decide

/-- Claim C10: the high-water-mark query selects the record with the
most recent timestamp; the starting sequence id equals (maximum stored
id) + 1 exactly when that time-latest record also carries the maximum
id `K`. -/
theorem mel_high_water_mark (store : List MelStored) (sys_id : String)
    (r : MelStored) (K : Int)
    (h : timeLatest (store.filter (fun x => x.sys_id = sys_id)) = some r)
    (hub : ∀ x ∈ store.filter (fun x => x.sys_id = sys_id), x.id ≤ K)
    (hK : r.id = K) :
    (∀ x ∈ store.filter (fun x => x.sys_id = sys_id), x.time ≤ r.time) ∧
    r ∈ store.filter (fun x => x.sys_id = sys_id) ∧
    collectMelStart store sys_id = K + 1 := by
  refine ⟨timeLatest_isMax _ r h, timeLatest_mem _ r h, ?_⟩
  simp [collectMelStart, startFrom, h, hK]

/-- Witness: rows (id 3, time 10), (id 9, time 25), (id 7, time 20)
for array "A": the time-latest row carries the maximum id 9, and the
starting sequence id is 10. -/
theorem mel_high_water_mark_witness :
    (∀ x ∈ ([⟨"A", 3, 10⟩, ⟨"A", 9, 25⟩, ⟨"A", 7, 20⟩] : List MelStored).filter
        (fun x => x.sys_id = "A"), x.time ≤ (25 : Int)) ∧
    collectMelStart [⟨"A", 3, 10⟩, ⟨"A", 9, 25⟩, ⟨"A", 7, 20⟩] "A" = 9 + 1 := by
  have h := mel_high_water_mark [⟨"A", 3, 10⟩, ⟨"A", 9, 25⟩, ⟨"A", 7, 20⟩] "A"
    ⟨"A", 9, 25⟩ 9 (by decide) (by decide) rfl
  exact ⟨h.1, h.2.2⟩

/-! Helper lemmas about failure-state deduplication. -/

theorem matchesPoint_mkFailureItem (t f : FailureTuple) (s n : String) :
    matchesPoint t (mkFailureItem s n f) = decide (t = f) := by
  cases t; cases f
  simp [matchesPoint, mkFailureItem, FailureTuple.mk.injEq, Bool.and_assoc]

theorem matchesPoint_self (f : FailureTuple) (s n : String) :
    matchesPoint f (mkFailureItem s n f) = true := by
  simp [matchesPoint, mkFailureItem]

theorem failureSeen_append (a b : List FailurePoint) (f : FailureTuple) :
    failureSeen (a ++ b) f = (failureSeen a f || failureSeen b f) := by
  simp [failureSeen, List.any_append]

theorem mkItems_filter_sys (s n : String) (l : List FailureTuple) :
    (l.map (mkFailureItem s n)).filter (fun p => p.sys_id = s) =
      l.map (mkFailureItem s n) := by
  rw [List.filter_eq_self]
  intro p hp
  rcases List.mem_map.mp hp with ⟨f, hf, rfl⟩
  simp [mkFailureItem]

theorem countTuple_append (t : FailureTuple) (a b : List FailurePoint) :
    countTuple t (a ++ b) = countTuple t a + countTuple t b := by
  simp [countTuple, List.countP_append]

theorem countTuple_body (stored : List FailurePoint) (s n : String)
    (u : List FailureTuple) (t : FailureTuple) :
    countTuple t ((u.filter (fun f => !(failureSeen stored f))).map (mkFailureItem s n)) =
      if failureSeen stored t then 0 else u.countP (fun f => decide (f = t)) := by
  unfold countTuple
  rw [List.countP_map]
  by_cases hseen : failureSeen stored t
  · rw [if_pos hseen, List.countP_eq_zero]
    intro f hf
    rcases List.mem_filter.mp hf with ⟨hfu, hns⟩
    simp only [Function.comp, matchesPoint_mkFailureItem]
    intro heq
    have ht : t = f := of_decide_eq_true heq
    rw [← ht] at hns
    rw [hseen] at hns
    simp at hns
  · rw [if_neg hseen, List.countP_filter]
    apply List.countP_congr
    intro f hf
    simp only [Function.comp, matchesPoint_mkFailureItem]
    by_cases htf : t = f
    · subst htf
      have hns : failureSeen stored t = false := by
        cases hfs : failureSeen stored t
        · rfl
        · exact absurd hfs hseen
      simp [hns]
    · have hft : ¬(f = t) := fun hh => htf hh.symm
      simp [htf, hft]

theorem failureSeen_of_countTuple_pos (pts : List FailurePoint) (t : FailureTuple)
    (h : 0 < countTuple t pts) : failureSeen pts t = true := by
  rcases List.countP_pos_iff.mp h with ⟨p, hp, hm⟩
  exact List.any_eq_true.mpr ⟨p, hp, hm⟩

theorem failureSeen_eq_false_of_countTuple_zero (pts : List FailurePoint) (t : FailureTuple)
    (h : countTuple t pts = 0) : failureSeen pts t = false := by
  rw [failureSeen, List.any_eq_false]
  intro p hp
  have := List.countP_eq_zero.mp h p hp
  simpa using this

theorem runTicks_countTuple_le (doNotPost : Bool) (sys_id sys_name : String)
    (ticks : List (List FailureTuple)) (store : List FailurePoint) (t : FailureTuple)
    (hdup : ∀ u ∈ ticks, u.countP (fun f => decide (f = t)) ≤ 1) :
    countTuple t (List.flatten (runTicks doNotPost store sys_id sys_name ticks).2) ≤
      if failureSeen (store.filter (fun p => p.sys_id = sys_id)) t then 0 else 1 := by
  induction ticks generalizing store with
  | nil =>
    simp only [runTicks, List.flatten]
    simp [countTuple]
  | cons u us ih =>
    have hdu := hdup u (List.mem_cons_self u us)
    have hdus : ∀ v ∈ us, v.countP (fun f => decide (f = t)) ≤ 1 :=
      fun v hv => hdup v (List.mem_cons_of_mem u hv)
    have hstep : (runTicks doNotPost store sys_id sys_name (u :: us)).2 =
        ((u.filter (fun f =>
            !(failureSeen (store.filter (fun p => p.sys_id = sys_id)) f))).map
          (mkFailureItem sys_id sys_name)) ::
        (runTicks doNotPost
          (store ++ (u.filter (fun f =>
              !(failureSeen (store.filter (fun p => p.sys_id = sys_id)) f))).map
            (mkFailureItem sys_id sys_name)) sys_id sys_name us).2 := by
      simp [runTicks, collect_system_state]
    rw [hstep, List.flatten_cons, countTuple_append]
    have hbodycount := countTuple_body (store.filter (fun p => p.sys_id = sys_id))
      sys_id sys_name u t
    have hfilt : ((store ++ (u.filter (fun f =>
        !(failureSeen (store.filter (fun p => p.sys_id = sys_id)) f))).map
          (mkFailureItem sys_id sys_name)).filter (fun p => p.sys_id = sys_id)) =
        store.filter (fun p => p.sys_id = sys_id) ++
        (u.filter (fun f =>
            !(failureSeen (store.filter (fun p => p.sys_id = sys_id)) f))).map
          (mkFailureItem sys_id sys_name) := by
      rw [List.filter_append, mkItems_filter_sys]
    have hrest := ih (store ++ (u.filter (fun f =>
        !(failureSeen (store.filter (fun p => p.sys_id = sys_id)) f))).map
          (mkFailureItem sys_id sys_name)) hdus
    rw [hfilt, failureSeen_append] at hrest
    by_cases hseen : failureSeen (store.filter (fun p => p.sys_id = sys_id)) t
    · rw [if_pos hseen]
      rw [hbodycount, if_pos hseen]
      rw [hseen] at hrest
      simp only [Bool.true_or, if_pos] at hrest
      omega
    · rw [if_neg hseen]
      have hsf : failureSeen (store.filter (fun p => p.sys_id = sys_id)) t = false := by
        cases hfs : failureSeen (store.filter (fun p => p.sys_id = sys_id)) t
        · rfl
        · exact absurd hfs hseen
      rw [hbodycount, if_neg hseen]
      rw [hsf, Bool.false_or] at hrest
      rcases Nat.eq_zero_or_pos (countTuple t ((u.filter (fun f =>
          !(failureSeen (store.filter (fun p => p.sys_id = sys_id)) f))).map
            (mkFailureItem sys_id sys_name))) with hz | hp
      · have hbf := failureSeen_eq_false_of_countTuple_zero _ t hz
        rw [hbf] at hrest
        simp only [if_neg Bool.false_ne_true] at hrest
        rw [hbodycount, if_neg hseen] at hz
        omega
      · have hbt := failureSeen_of_countTuple_pos _ t hp
        rw [hbt] at hrest
        simp only [if_pos] at hrest
        rw [hbodycount, if_neg hseen] at hp
        omega

theorem state_second_run_empty (doNotPost : Bool) (store : List FailurePoint)
    (sys_id sys_name : String) (u : List FailureTuple) :
    (collect_system_state doNotPost
      (collect_system_state doNotPost store sys_id sys_name u).newStore
      sys_id sys_name u).writeCall = some [] := by
  simp only [collect_system_state, Option.some.injEq]
  rw [List.map_eq_nil_iff, List.filter_eq_nil_iff]
  intro f hf
  simp only [Bool.not_eq_true', Bool.not_eq_false]
  rw [List.filter_append, mkItems_filter_sys, failureSeen_append]
  by_cases hs : failureSeen (store.filter (fun p => p.sys_id = sys_id)) f
  · rw [hs]; rfl
  · have hsf : failureSeen (store.filter (fun p => p.sys_id = sys_id)) f = false := by
      cases hfs : failureSeen (store.filter (fun p => p.sys_id = sys_id)) f
      · rfl
      · exact absurd hfs hs
    have hmem : mkFailureItem sys_id sys_name f ∈
        (u.filter (fun g =>
          !(failureSeen (store.filter (fun p => p.sys_id = sys_id)) g))).map
          (mkFailureItem sys_id sys_name) :=
      List.mem_map.mpr ⟨f, List.mem_filter.mpr ⟨hf, by rw [hsf]; rfl⟩, rfl⟩
    have hseenbody : failureSeen
        ((u.filter (fun g =>
          !(failureSeen (store.filter (fun p => p.sys_id = sys_id)) g))).map
          (mkFailureItem sys_id sys_name)) f = true :=
      List.any_eq_true.mpr ⟨_, hmem, matchesPoint_self f sys_id sys_name⟩
    rw [hseenbody, Bool.or_true]

/-- Claim C1 (amended): failure-state collection is idempotent — a
second run against the store left by the first, with the same upstream
failure list, issues its write call with an empty batch — and, provided
each tick's upstream list names any given identity tuple at most once,
a given identity tuple is written at most once across any number of
ticks.  (If one upstream response repeats a tuple, the source writes it
once per repetition in that tick, since the dedup set is read before
the loop and never updated within it.) -/
theorem failure_observed_once :
    (∀ (doNotPost : Bool) (store : List FailurePoint) (sys_id sys_name : String)
        (upstream : List FailureTuple),
      (collect_system_state doNotPost
        (collect_system_state doNotPost store sys_id sys_name upstream).newStore
        sys_id sys_name upstream).writeCall = some []) ∧
    (∀ (doNotPost : Bool) (store : List FailurePoint) (sys_id sys_name : String)
        (ticks : List (List FailureTuple)) (t : FailureTuple),
      (∀ u ∈ ticks, u.countP (fun f => decide (f = t)) ≤ 1) →
      countTuple t (List.flatten (runTicks doNotPost store sys_id sys_name ticks).2) ≤ 1) := by
  constructor
  · exact state_second_run_empty
  · intro doNotPost store sys_id sys_name ticks t hdup
    refine le_trans (runTicks_countTuple_le doNotPost sys_id sys_name ticks store t hdup) ?_
    split <;> omega

/-- Witness: one failure tuple observed on three consecutive ticks from
an empty store is written at most once, and the second of two identical
runs issues an empty write. -/
theorem failure_observed_once_witness :
    (collect_system_state false
      (collect_system_state false [] "A" "A"
        [⟨"drive", "R1", "disk"⟩]).newStore
      "A" "A" [⟨"drive", "R1", "disk"⟩]).writeCall = some [] ∧
    countTuple ⟨"drive", "R1", "disk"⟩
      (List.flatten (runTicks false [] "A" "A"
        [[⟨"drive", "R1", "disk"⟩], [⟨"drive", "R1", "disk"⟩],
         [⟨"drive", "R1", "disk"⟩]]).2) ≤ 1 :=
  ⟨failure_observed_once.1 false [] "A" "A" [⟨"drive", "R1", "disk"⟩],
   failure_observed_once.2 false [] "A" "A"
     [[⟨"drive", "R1", "disk"⟩], [⟨"drive", "R1", "disk"⟩],
      [⟨"drive", "R1", "disk"⟩]] ⟨"drive", "R1", "disk"⟩ (by decide)⟩

/-- Counterexample to C1 as stated: a single tick whose upstream
response lists the same identity tuple twice writes two points carrying
that tuple, because the dedup set is only read from the store before
the loop. -/
theorem failure_duplicate_tick_cex :
    countTuple ⟨"drive", "R1", "disk"⟩
      (List.flatten (runTicks false [] "A" "A"
        [[⟨"drive", "R1", "disk"⟩, ⟨"drive", "R1", "disk"⟩]]).2) = 2 := by
  decide

/-- Claim C5 (amended): the batch handed to the write call contains
only newly detected failures (identity tuples absent from the store's
records for that array), but the write call itself is unconditional —
an empty batch still results in a store write call, carrying zero
points; the "Found N new failures" log line fires exactly when the
batch is non-empty. -/
theorem state_write_only_new (doNotPost : Bool) (store : List FailurePoint)
    (sys_id sys_name : String) (upstream : List FailureTuple) :
    ∃ body,
      (collect_system_state doNotPost store sys_id sys_name upstream).writeCall =
        some body ∧
      (∀ p ∈ body, ∃ f ∈ upstream, p = mkFailureItem sys_id sys_name f ∧
        failureSeen (store.filter (fun q => q.sys_id = sys_id)) f = false) ∧
      ((collect_system_state doNotPost store sys_id sys_name upstream).loggedCount = true ↔
        body ≠ []) := by
  refine ⟨_, rfl, ?_, ?_⟩
  · intro p hp
    rcases List.mem_map.mp hp with ⟨f, hf, rfl⟩
    rcases List.mem_filter.mp hf with ⟨hfu, hns⟩
    exact ⟨f, hfu, rfl, by simpa using hns⟩
  · simp only [collect_system_state, decide_eq_true_eq]
    rw [List.length_pos]

/-- Witness: one fresh upstream failure against an empty store yields
a write call whose batch holds only new failures, with the count log
firing. -/
theorem state_write_only_new_witness :
    ∃ body,
      (collect_system_state false [] "A" "A"
        [⟨"drive", "R1", "disk"⟩]).writeCall = some body ∧
      (∀ p ∈ body, ∃ f ∈ ([⟨"drive", "R1", "disk"⟩] : List FailureTuple),
        p = mkFailureItem "A" "A" f ∧
        failureSeen (([] : List FailurePoint).filter (fun q => q.sys_id = "A")) f
          = false) ∧
      ((collect_system_state false [] "A" "A"
        [⟨"drive", "R1", "disk"⟩]).loggedCount = true ↔ body ≠ []) :=
  state_write_only_new false [] "A" "A" [⟨"drive", "R1", "disk"⟩]

/-- Counterexample to C5 as stated: when every upstream failure is
already stored the batch is empty, yet the write call is still made
(with an empty list), contradicting "no store write call is made". -/
theorem state_empty_batch_write_cex :
    (collect_system_state false
        [mkFailureItem "A" "A" ⟨"drive", "R1", "disk"⟩] "A" "A"
        [⟨"drive", "R1", "disk"⟩]).writeCall = some [] ∧
    (collect_system_state false
        [mkFailureItem "A" "A" ⟨"drive", "R1", "disk"⟩] "A" "A"
        [⟨"drive", "R1", "disk"⟩]).writeCall ≠ none := by
  constructor
  · decide
  · decide

/-- A dry-run metrics input whose single drive resolves to tray 1,
slot 4. -/
def dryRunMetricsInput : MetricsInput :=
  { driveStats := [{ diskId := "D1", stats := [("readIOps", 5)] }],
    hw := { trays := [{ trayRef := "T1", trayId := 1 }],
            drives := [{ driveRef := "D1", trayRef := "T1", slot := 4 }] },
    systemStats := [("maxCpuUtilization", 2)],
    volumeStats := [{ volumeName := "V1", stats := [] }] }

/-- A concrete major event log entry. -/
def dryRunMelEvent : MelEvent :=
  { id := 10, description := "d", location := "l", eventType := "e",
    timeStamp := 100, category := "c", priority := "p", critical := "x",
    ascq := "q", asc := "a" }

/-- Claim C4 is violated by the code: with the do-not-write flag set,
`collect_major_event_log` and `collect_system_state` still call
`write_points` with their batches (the flag is consulted nowhere in
those functions), while `collect_storage_metrics` honours the flag and
makes no write call. -/
theorem dry_run_flag_bug :
    (collect_major_event_log true [] "A" "A" (fun _ => [dryRunMelEvent])).2 =
      some [mkMelItem "A" "A" dryRunMelEvent] ∧
    (collect_major_event_log true [] "A" "A" (fun _ => [dryRunMelEvent])).2 ≠ none ∧
    (collect_system_state true [] "A" "A"
        [⟨"drive", "R1", "disk"⟩]).writeCall =
      some [mkFailureItem "A" "A" ⟨"drive", "R1", "disk"⟩] ∧
    (collect_system_state true [] "A" "A"
        [⟨"drive", "R1", "disk"⟩]).writeCall ≠ none ∧
    collect_storage_metrics_write true "A" "A" dryRunMetricsInput = .ok none := by
  refine ⟨rfl, by decide, by decide, by decide, rfl⟩

/-! Helper lemmas about the system-metrics collector. -/

theorem fieldOf_null_or_int (stats : List (String × Int)) (m : String) :
    fieldOf stats m = FieldVal.null ∨ ∃ k, fieldOf stats m = FieldVal.int k := by
  unfold fieldOf
  cases pyDictGet stats m <;> simp

theorem fields_keys_map (L : List String) (s : List (String × Int)) :
    (L.map (fun m => (m, fieldOf s m))).map Prod.fst = L := by
  induction L with
  | nil => rfl
  | cons a t ih => simp only [List.map_cons, ih]

theorem fields_mem_null_or_int (L : List String) (s : List (String × Int))
    (m : String) (hm : m ∈ L) :
    (m, FieldVal.null) ∈ L.map (fun x => (x, fieldOf s x)) ∨
    ∃ k, (m, FieldVal.int k) ∈ L.map (fun x => (x, fieldOf s x)) := by
  rcases fieldOf_null_or_int s m with h | ⟨k, h⟩
  · exact Or.inl (List.mem_map.mpr ⟨m, hm, by rw [h]⟩)
  · exact Or.inr ⟨k, List.mem_map.mpr ⟨m, hm, by rw [h]⟩⟩

theorem paramsFor_disks : paramsFor "disks" = DRIVE_PARAMS := rfl

theorem paramsFor_systems : paramsFor "systems" = SYSTEM_PARAMS := rfl

theorem paramsFor_volumes : paramsFor "volumes" = VOLUME_PARAMS := rfl

theorem buildDiskItems_ok (sys_id sys_name : String)
    (locs : List (String × Option Int × Int)) (l : List DriveStat)
    (h : ∀ st ∈ l, ∃ tray slot, pyDictGet locs st.diskId = some (some tray, slot)) :
    ∃ pts, buildDiskItems sys_id sys_name locs l = .ok pts ∧
      pts.length = l.length ∧
      ∀ p ∈ pts, p.measurement = "disks" ∧
        ∃ st ∈ l, p.fields = DRIVE_PARAMS.map (fun m => (m, fieldOf st.stats m)) := by
  induction l with
  | nil => exact ⟨[], rfl, rfl, by simp⟩
  | cons st rest ih =>
    rcases h st (List.mem_cons_self st rest) with ⟨tray, slot, hloc⟩
    rcases ih (fun a ha => h a (List.mem_cons_of_mem st ha)) with ⟨pts, hok, hlen, hprop⟩
    refine ⟨{ measurement := "disks",
              tags := [("sys_id", sys_id), ("sys_name", sys_name),
                       ("sys_tray", zeroPad 2 tray),
                       ("sys_tray_slot", zeroPad 3 slot)],
              fields := DRIVE_PARAMS.map (fun m => (m, fieldOf st.stats m)) } :: pts,
           ?_, by simp [hlen], ?_⟩
    · simp [buildDiskItems, mkDiskItem, hloc, hok]
    · intro p hp
      rcases List.mem_cons.mp hp with rfl | hmem
      · exact ⟨rfl, st, List.mem_cons_self st rest, rfl⟩
      · rcases hprop p hmem with ⟨hm, st2, hst2, hf⟩
        exact ⟨hm, st2, List.mem_cons_of_mem st hst2, hf⟩

theorem mkDiskItem_error_eq (sys_id sys_name : String)
    (locs : List (String × Option Int × Int)) (st : DriveStat) (e : PyError)
    (h : mkDiskItem sys_id sys_name locs st = .error e) : e = .typeError := by
  unfold mkDiskItem at h
  rcases hg : pyDictGet locs st.diskId with _ | ⟨tray?, slot⟩
  · rw [hg] at h
    injection h with h2
    exact h2.symm
  · rcases tray? with _ | tray
    · rw [hg] at h
      injection h with h2
      exact h2.symm
    · rw [hg] at h
      exact Except.noConfusion h

theorem buildDiskItems_error (sys_id sys_name : String)
    (locs : List (String × Option Int × Int)) (l : List DriveStat)
    (h : ∃ st ∈ l, pyDictGet locs st.diskId = none) :
    buildDiskItems sys_id sys_name locs l = .error .typeError := by
  induction l with
  | nil =>
    rcases h with ⟨st, hst, _⟩
    cases hst
  | cons a rest ih =>
    rcases h with ⟨st, hst, hnone⟩
    rcases List.mem_cons.mp hst with rfl | hmem
    · simp [buildDiskItems, mkDiskItem, hnone]
    · cases hmk : mkDiskItem sys_id sys_name locs a with
      | error e =>
        have he := mkDiskItem_error_eq sys_id sys_name locs a e hmk
        subst he
        simp [buildDiskItems, hmk]
      | ok p =>
        have hrest := ih ⟨st, hmem, hnone⟩
        simp [buildDiskItems, hmk, hrest]

/-- Claim C6 (amended): for an array whose per-disk statistics all
resolve in the drive-location map (with a known tray), the metrics
batch contains exactly N disks points, exactly 1 systems point and
exactly V volumes points, and each point's field keys are exactly the
metric names of its measurement category, every such key carrying
either a number or null (never omitted).  Without the resolvability
hypothesis the collection can abort with no batch (see the
counterexample). -/
theorem metrics_batch_shape (sys_id sys_name : String) (inp : MetricsInput)
    (hloc : ∀ st ∈ inp.driveStats, ∃ tray slot,
        pyDictGet (get_drive_location inp.hw) st.diskId = some (some tray, slot)) :
    ∃ pts, collect_storage_metrics_body sys_id sys_name inp = .ok pts ∧
      (pts.filter (fun p => p.measurement = "disks")).length = inp.driveStats.length ∧
      (pts.filter (fun p => p.measurement = "systems")).length = 1 ∧
      (pts.filter (fun p => p.measurement = "volumes")).length = inp.volumeStats.length ∧
      (∀ p ∈ pts, p.fields.map Prod.fst = paramsFor p.measurement) ∧
      (∀ p ∈ pts, ∀ m ∈ paramsFor p.measurement,
        (m, FieldVal.null) ∈ p.fields ∨ ∃ k, (m, FieldVal.int k) ∈ p.fields) := by
  rcases buildDiskItems_ok sys_id sys_name (get_drive_location inp.hw) inp.driveStats hloc
    with ⟨dpts, hok, hlen, hprop⟩
  have hdisks : ∀ p ∈ dpts, p.measurement = "disks" := fun p hp => (hprop p hp).1
  refine ⟨dpts ++ [mkSysItem sys_id sys_name inp.systemStats] ++
    inp.volumeStats.map (mkVolItem sys_id sys_name), ?_, ?_, ?_, ?_, ?_, ?_⟩
  · simp [collect_storage_metrics_body, hok]
  · rw [List.filter_append, List.filter_append, List.length_append, List.length_append]
    have h1 : dpts.filter (fun p => p.measurement = "disks") = dpts := by
      rw [List.filter_eq_self]
      intro p hp
      simp [hdisks p hp]
    have h2 : ([mkSysItem sys_id sys_name inp.systemStats] : List Point).filter
        (fun p => p.measurement = "disks") = [] := by
      simp [mkSysItem]
    have h3 : (inp.volumeStats.map (mkVolItem sys_id sys_name)).filter
        (fun p => p.measurement = "disks") = [] := by
      rw [List.filter_eq_nil_iff]
      intro p hp
      rcases List.mem_map.mp hp with ⟨v, hv, rfl⟩
      simp [mkVolItem]
    rw [h1, h2, h3]
    simp [hlen]
  · rw [List.filter_append, List.filter_append, List.length_append, List.length_append]
    have h1 : dpts.filter (fun p => p.measurement = "systems") = [] := by
      rw [List.filter_eq_nil_iff]
      intro p hp
      simp [hdisks p hp]
    have h2 : ([mkSysItem sys_id sys_name inp.systemStats] : List Point).filter
        (fun p => p.measurement = "systems") =
        [mkSysItem sys_id sys_name inp.systemStats] := by
      simp [mkSysItem]
    have h3 : (inp.volumeStats.map (mkVolItem sys_id sys_name)).filter
        (fun p => p.measurement = "systems") = [] := by
      rw [List.filter_eq_nil_iff]
      intro p hp
      rcases List.mem_map.mp hp with ⟨v, hv, rfl⟩
      simp [mkVolItem]
    rw [h1, h2, h3]
    simp
  · rw [List.filter_append, List.filter_append, List.length_append, List.length_append]
    have h1 : dpts.filter (fun p => p.measurement = "volumes") = [] := by
      rw [List.filter_eq_nil_iff]
      intro p hp
      simp [hdisks p hp]
    have h2 : ([mkSysItem sys_id sys_name inp.systemStats] : List Point).filter
        (fun p => p.measurement = "volumes") = [] := by
      simp [mkSysItem]
    have h3 : (inp.volumeStats.map (mkVolItem sys_id sys_name)).filter
        (fun p => p.measurement = "volumes") =
        inp.volumeStats.map (mkVolItem sys_id sys_name) := by
      rw [List.filter_eq_self]
      intro p hp
      rcases List.mem_map.mp hp with ⟨v, hv, rfl⟩
      simp [mkVolItem]
    rw [h1, h2, h3]
    simp
  · intro p hp
    rcases List.mem_append.mp hp with hp2 | hvol
    · rcases List.mem_append.mp hp2 with hd | hsys
      · rcases hprop p hd with ⟨hm, st, hst, hf⟩
        rw [hm, paramsFor_disks, hf]
        exact fields_keys_map DRIVE_PARAMS st.stats
      · rcases List.mem_singleton.mp hsys with rfl
        rw [show (mkSysItem sys_id sys_name inp.systemStats).measurement = "systems" from rfl,
          paramsFor_systems]
        exact fields_keys_map SYSTEM_PARAMS inp.systemStats
    · rcases List.mem_map.mp hvol with ⟨v, hv, rfl⟩
      rw [show (mkVolItem sys_id sys_name v).measurement = "volumes" from rfl,
        paramsFor_volumes]
      exact fields_keys_map VOLUME_PARAMS v.stats
  · intro p hp m hm
    rcases List.mem_append.mp hp with hp2 | hvol
    · rcases List.mem_append.mp hp2 with hd | hsys
      · rcases hprop p hd with ⟨hmeas, st, hst, hf⟩
        rw [hmeas, paramsFor_disks] at hm
        rw [hf]
        exact fields_mem_null_or_int DRIVE_PARAMS st.stats m hm
      · rcases List.mem_singleton.mp hsys with rfl
        rw [show (mkSysItem sys_id sys_name inp.systemStats).measurement = "systems" from rfl,
          paramsFor_systems] at hm
        exact fields_mem_null_or_int SYSTEM_PARAMS inp.systemStats m hm
    · rcases List.mem_map.mp hvol with ⟨v, hv, rfl⟩
      rw [show (mkVolItem sys_id sys_name v).measurement = "volumes" from rfl,
        paramsFor_volumes] at hm
      exact fields_mem_null_or_int VOLUME_PARAMS v.stats m hm

/-- A metrics input whose single drive resolves to tray 2, slot 3, and
which has two volumes; its drive record lacks every defined counter. -/
def resolvedMetricsInput : MetricsInput :=
  { driveStats := [{ diskId := "D1", stats := [("readIOps", 7)] }],
    hw := { trays := [{ trayRef := "T1", trayId := 2 }],
            drives := [{ driveRef := "D1", trayRef := "T1", slot := 3 }] },
    systemStats := [],
    volumeStats := [{ volumeName := "V1", stats := [] },
                    { volumeName := "V2", stats := [] }] }

/-- Witness: the resolvable one-disk, two-volume input yields exactly
1 disks point, 1 systems point and 2 volumes points with full field
sets. -/
theorem metrics_batch_shape_witness :
    ∃ pts, collect_storage_metrics_body "A" "A" resolvedMetricsInput = .ok pts ∧
      (pts.filter (fun p => p.measurement = "disks")).length = 1 ∧
      (pts.filter (fun p => p.measurement = "systems")).length = 1 ∧
      (pts.filter (fun p => p.measurement = "volumes")).length = 2 ∧
      (∀ p ∈ pts, p.fields.map Prod.fst = paramsFor p.measurement) ∧
      (∀ p ∈ pts, ∀ m ∈ paramsFor p.measurement,
        (m, FieldVal.null) ∈ p.fields ∨ ∃ k, (m, FieldVal.int k) ∈ p.fields) := by
  have h := metrics_batch_shape "A" "A" resolvedMetricsInput
    (fun st hst => by
      simp only [resolvedMetricsInput, List.mem_singleton] at hst
      subst hst
      exact ⟨2, 3, rfl⟩)
  rcases h with ⟨pts, h1, h2, h3, h4, h5, h6⟩
  exact ⟨pts, h1, h2, h3, h4, h5, h6⟩

/-- Counterexample to C6 as stated: an array with one drive-statistics
record (N = 1) whose disk id is absent from the drive-location map
constructs no batch at all (the TypeError aborts the array's
collection), rather than one disks point plus the system point. -/
theorem metrics_batch_shape_cex :
    collect_storage_metrics_body "A" "A"
      { driveStats := [{ diskId := "D1", stats := [] }],
        hw := { trays := [], drives := [] },
        systemStats := [], volumeStats := [] } = .error .typeError := rfl

/-- Claim C7 (amended): when a drive's disk id is absent from the
drive-location map, the whole array's metrics collection for that tick
aborts with an uncaught TypeError: no point is constructed for any
disk, nothing is written, and — since only RuntimeError is caught — the
task's own handler logs nothing. -/
theorem unresolved_location_terminal (doNotPost : Bool) (sys_id sys_name : String)
    (inp : MetricsInput)
    (h : ∃ st ∈ inp.driveStats,
        pyDictGet (get_drive_location inp.hw) st.diskId = none) :
    collect_storage_metrics_body sys_id sys_name inp = .error .typeError ∧
    collect_storage_metrics_task doNotPost sys_id sys_name inp = .uncaught .typeError ∧
    outcomeLogsError (collect_storage_metrics_task doNotPost sys_id sys_name inp) = false := by
  have hb := buildDiskItems_error sys_id sys_name (get_drive_location inp.hw)
    inp.driveStats h
  have h1 : collect_storage_metrics_body sys_id sys_name inp = .error .typeError := by
    simp [collect_storage_metrics_body, hb]
  have h2 : collect_storage_metrics_task doNotPost sys_id sys_name inp =
      .uncaught .typeError := by
    simp [collect_storage_metrics_task, collect_storage_metrics_write, h1, runTask]
  exact ⟨h1, h2, by rw [h2]; rfl⟩

/-- A metrics input with one resolvable drive and one drive missing
from the location map. -/
def mixedMetricsInput : MetricsInput :=
  { driveStats := [{ diskId := "D1", stats := [] }, { diskId := "D2", stats := [] }],
    hw := { trays := [{ trayRef := "T1", trayId := 1 }],
            drives := [{ driveRef := "D1", trayRef := "T1", slot := 1 }] },
    systemStats := [], volumeStats := [] }

/-- Witness: one unresolvable drive among two makes the whole array's
collection terminate with an uncaught, unlogged TypeError. -/
theorem unresolved_location_terminal_witness :
    collect_storage_metrics_body "A" "A" mixedMetricsInput = .error .typeError ∧
    collect_storage_metrics_task false "A" "A" mixedMetricsInput = .uncaught .typeError ∧
    outcomeLogsError (collect_storage_metrics_task false "A" "A" mixedMetricsInput) = false :=
  unresolved_location_terminal false "A" "A" mixedMetricsInput (by decide)

/-- Counterexample to C7 as stated: with a single unresolvable disk the
task ends in an uncaught TypeError — a terminal failure of the array's
collection — instead of constructing the disk's point without tray and
slot tags. -/
theorem unresolved_location_cex :
    collect_storage_metrics_task false "A" "A"
      { driveStats := [{ diskId := "DX", stats := [] }],
        hw := { trays := [], drives := [] },
        systemStats := [], volumeStats := [{ volumeName := "V", stats := [] }] } =
      .uncaught .typeError := rfl

/-- Claim C8 (amended): the executor gives every array an outcome that
is a function of that array's input alone (no task aborts or blocks
another, and the tick's phase always yields one outcome per array, so
nothing propagates to the scheduler loop); a task's own handler catches
and logs exactly RuntimeError; any other exception ends as an uncaught
outcome with no log line from the task. -/
theorem task_isolation :
    (∀ (doNotPost : Bool) (sys_id sys_name : String)
        (inputs : List MetricsInput) (i : Nat),
      (phaseOutcomes (collect_storage_metrics_task doNotPost sys_id sys_name)
          inputs).length = inputs.length ∧
      (phaseOutcomes (collect_storage_metrics_task doNotPost sys_id sys_name)
          inputs)[i]? =
        (inputs[i]?).map (collect_storage_metrics_task doNotPost sys_id sys_name)) ∧
    (∀ b : Except PyError (Option (List Point)),
      runTask b = .loggedError ↔ b = .error .runtimeError) ∧
    (∀ (b : Except PyError (Option (List Point))) (e : PyError),
      runTask b = .uncaught e →
        outcomeLogsError (runTask b) = false ∧ e ≠ .runtimeError) := by
  refine ⟨?_, ?_, ?_⟩
  · intro dnp s n inputs i
    exact ⟨by simp [phaseOutcomes], by simp [phaseOutcomes]⟩
  · intro b
    constructor
    · intro h
      cases b with
      | ok w => exact absurd h (by simp [runTask])
      | error e =>
        cases e with
        | runtimeError => rfl
        | typeError => exact absurd h (by simp [runTask])
        | connectionError => exact absurd h (by simp [runTask])
    · intro h
      rw [h]
      rfl
  · intro b e h
    refine ⟨by rw [h]; rfl, ?_⟩
    cases b with
    | ok w => exact absurd h (by simp [runTask])
    | error e2 =>
      cases e2 with
      | runtimeError => exact absurd h (by simp [runTask])
      | typeError =>
        have he : TaskOutcome.uncaught (α := List Point) .typeError =
            .uncaught e := h
        injection he with he2
        rw [← he2]
        intro hx
        exact PyError.noConfusion hx
      | connectionError =>
        have he : TaskOutcome.uncaught (α := List Point) .connectionError =
            .uncaught e := h
        injection he with he2
        rw [← he2]
        intro hx
        exact PyError.noConfusion hx

/-- Witness: a one-array phase yields one outcome; a RuntimeError body
is logged; a TypeError body is uncaught and unlogged. -/
theorem task_isolation_witness :
    (phaseOutcomes (collect_storage_metrics_task false "A" "A")
        [dryRunMetricsInput]).length = 1 ∧
    runTask (Except.error PyError.runtimeError :
        Except PyError (Option (List Point))) = .loggedError ∧
    outcomeLogsError (runTask (Except.error PyError.typeError :
        Except PyError (Option (List Point)))) = false ∧
    PyError.typeError ≠ PyError.runtimeError := by
  refine ⟨?_, ?_, ?_, ?_⟩
  · have h := (task_isolation.1 false "A" "A" [dryRunMetricsInput] 0).1
    simpa using h
  · exact (task_isolation.2.1 _).mpr rfl
  · exact (task_isolation.2.2 (Except.error PyError.typeError :
      Except PyError (Option (List Point))) PyError.typeError rfl).1
  · exact (task_isolation.2.2 (Except.error PyError.typeError :
      Except PyError (Option (List Point))) PyError.typeError rfl).2

/-- Counterexample to C8 as stated: an unresolvable drive location
raises TypeError, which the task does not catch and for which it emits
no log line — the error is swallowed by the never-inspected future. -/
theorem unlogged_error_cex :
    collect_storage_metrics_task false "B" "B"
      { driveStats := [{ diskId := "DY", stats := [] }],
        hw := { trays := [], drives := [] },
        systemStats := [], volumeStats := [] } = .uncaught .typeError ∧
    outcomeLogsError (collect_storage_metrics_task false "B" "B"
      { driveStats := [{ diskId := "DY", stats := [] }],
        hw := { trays := [], drives := [] },
        systemStats := [], volumeStats := [] }) = false :=
  ⟨rfl, rfl⟩

/-! Helper lemmas about the tick's event trace. -/

theorem append_kind_le (l1 l2 : List TaskEvent) (k : CollKind)
    (hl : ∀ e ∈ l1, e.kind ≠ k) (i : Nat) (h : i < (l1 ++ l2).length)
    (hk : ((l1 ++ l2).get ⟨i, h⟩).kind = k) : l1.length ≤ i := by
  by_contra hlt
  push_neg at hlt
  rw [List.get_eq_getElem] at hk
  rw [List.getElem_append_left hlt] at hk
  exact hl _ (List.getElem_mem hlt) hk

theorem append_kind_lt (l1 l2 : List TaskEvent) (k : CollKind)
    (hl : ∀ e ∈ l2, e.kind ≠ k) (i : Nat) (h : i < (l1 ++ l2).length)
    (hk : ((l1 ++ l2).get ⟨i, h⟩).kind = k) :
    ∃ hi : i < l1.length, (l1.get ⟨i, hi⟩).kind = k := by
  have hlen : i < l1.length := by
    by_contra hge
    push_neg at hge
    rw [List.get_eq_getElem] at hk
    rw [List.getElem_append_right hge] at hk
    exact hl _ (List.getElem_mem _) hk
  refine ⟨hlen, ?_⟩
  rw [List.get_eq_getElem] at hk ⊢
  rw [List.getElem_append_left hlen] at hk
  exact hk

theorem mem_phaseMap_kind (k : CollKind) (l : List (Nat × Bool)) (e : TaskEvent)
    (he : e ∈ l.map (fun p => TaskEvent.mk k p.1 p.2)) : e.kind = k := by
  rcases List.mem_map.mp he with ⟨p, hp, rfl⟩
  rfl

theorem mem_phaseSchedule (n a : Nat) (b : Bool) (ha : a < n) :
    (a, b) ∈ phaseSchedule n := by
  cases b
  · exact List.mem_append_right _ (List.mem_map.mpr ⟨a, List.mem_range.mpr ha, rfl⟩)
  · exact List.mem_append_left _ (List.mem_map.mpr ⟨a, List.mem_range.mpr ha, rfl⟩)

/-- Claim C9: within a tick every metrics event (start or completion,
any array) precedes every failure-state event, and every failure-state
event precedes every event-log event, for every executor ordering of
each phase; and when each phase's ordering covers all `n` arrays, every
(kind, array, start/complete) event occurs in the trace. -/
theorem tick_phase_ordering (n : Nat) (e1 e2 e3 : List (Nat × Bool))
    (h1 : e1.Perm (phaseSchedule n)) (h2 : e2.Perm (phaseSchedule n))
    (h3 : e3.Perm (phaseSchedule n)) :
    (∀ (i j : Nat) (hi : i < (tickTrace e1 e2 e3).length)
        (hj : j < (tickTrace e1 e2 e3).length),
      ((tickTrace e1 e2 e3).get ⟨i, hi⟩).kind = .metrics →
      ((tickTrace e1 e2 e3).get ⟨j, hj⟩).kind = .state → i < j) ∧
    (∀ (i j : Nat) (hi : i < (tickTrace e1 e2 e3).length)
        (hj : j < (tickTrace e1 e2 e3).length),
      ((tickTrace e1 e2 e3).get ⟨i, hi⟩).kind = .state →
      ((tickTrace e1 e2 e3).get ⟨j, hj⟩).kind = .mel → i < j) ∧
    (∀ a, a < n → ∀ b : Bool,
      TaskEvent.mk .metrics a b ∈ tickTrace e1 e2 e3 ∧
      TaskEvent.mk .state a b ∈ tickTrace e1 e2 e3 ∧
      TaskEvent.mk .mel a b ∈ tickTrace e1 e2 e3) := by
  have hA : ∀ e ∈ e1.map (fun p => TaskEvent.mk .metrics p.1 p.2), e.kind = CollKind.metrics :=
    fun e he => mem_phaseMap_kind _ e1 e he
  have hB : ∀ e ∈ e2.map (fun p => TaskEvent.mk .state p.1 p.2), e.kind = CollKind.state :=
    fun e he => mem_phaseMap_kind _ e2 e he
  have hC : ∀ e ∈ e3.map (fun p => TaskEvent.mk .mel p.1 p.2), e.kind = CollKind.mel :=
    fun e he => mem_phaseMap_kind _ e3 e he
  have hCne : ∀ k, k ≠ CollKind.mel →
      ∀ e ∈ e3.map (fun p => TaskEvent.mk .mel p.1 p.2), e.kind ≠ k :=
    fun k hk e he => by rw [hC e he]; exact fun hh => hk hh.symm
  have hABne : ∀ e ∈ e1.map (fun p => TaskEvent.mk .metrics p.1 p.2) ++
      e2.map (fun p => TaskEvent.mk .state p.1 p.2), e.kind ≠ CollKind.mel := by
    intro e he
    rcases List.mem_append.mp he with ha | hb
    · rw [hA e ha]; exact fun hh => CollKind.noConfusion hh
    · rw [hB e hb]; exact fun hh => CollKind.noConfusion hh
  refine ⟨?_, ?_, ?_⟩
  · intro i j hi hj hki hkj
    rcases append_kind_lt _ _ CollKind.metrics
        (hCne CollKind.metrics (fun hh => CollKind.noConfusion hh)) i hi hki
      with ⟨hi2, hki2⟩
    rcases append_kind_lt _ _ CollKind.metrics
        (fun e he => by rw [hB e he]; exact fun hh => CollKind.noConfusion hh) i hi2 hki2
      with ⟨hi3, _⟩
    rcases append_kind_lt _ _ CollKind.state
        (hCne CollKind.state (fun hh => CollKind.noConfusion hh)) j hj hkj
      with ⟨hj2, hkj2⟩
    have hjge := append_kind_le _ _ CollKind.state
      (fun e he => by rw [hA e he]; exact fun hh => CollKind.noConfusion hh) j hj2 hkj2
    omega
  · intro i j hi hj hki hkj
    rcases append_kind_lt _ _ CollKind.state
        (hCne CollKind.state (fun hh => CollKind.noConfusion hh)) i hi hki
      with ⟨hi2, _⟩
    have hjge := append_kind_le _ _ CollKind.mel hABne j hj hkj
    omega
  · intro a ha b
    refine ⟨?_, ?_, ?_⟩
    · exact List.mem_append_left _ (List.mem_append_left _
        (List.mem_map.mpr ⟨(a, b), h1.mem_iff.mpr (mem_phaseSchedule n a b ha), rfl⟩))
    · exact List.mem_append_left _ (List.mem_append_right _
        (List.mem_map.mpr ⟨(a, b), h2.mem_iff.mpr (mem_phaseSchedule n a b ha), rfl⟩))
    · exact List.mem_append_right _
        (List.mem_map.mpr ⟨(a, b), h3.mem_iff.mpr (mem_phaseSchedule n a b ha), rfl⟩)

/-- Witness: a two-array tick with shuffled within-phase orderings
still runs all metrics events before all failure-state events before
all event-log events, and contains every task's events. -/
theorem tick_phase_ordering_witness :
    (∀ (i j : Nat)
        (hi : i < (tickTrace [(1, true), (0, true), (1, false), (0, false)]
          (phaseSchedule 2) [(0, true), (0, false), (1, true), (1, false)]).length)
        (hj : j < (tickTrace [(1, true), (0, true), (1, false), (0, false)]
          (phaseSchedule 2) [(0, true), (0, false), (1, true), (1, false)]).length),
      ((tickTrace [(1, true), (0, true), (1, false), (0, false)]
          (phaseSchedule 2) [(0, true), (0, false), (1, true), (1, false)]).get
        ⟨i, hi⟩).kind = .metrics →
      ((tickTrace [(1, true), (0, true), (1, false), (0, false)]
          (phaseSchedule 2) [(0, true), (0, false), (1, true), (1, false)]).get
        ⟨j, hj⟩).kind = .state → i < j) ∧
    (∀ (i j : Nat)
        (hi : i < (tickTrace [(1, true), (0, true), (1, false), (0, false)]
          (phaseSchedule 2) [(0, true), (0, false), (1, true), (1, false)]).length)
        (hj : j < (tickTrace [(1, true), (0, true), (1, false), (0, false)]
          (phaseSchedule 2) [(0, true), (0, false), (1, true), (1, false)]).length),
      ((tickTrace [(1, true), (0, true), (1, false), (0, false)]
          (phaseSchedule 2) [(0, true), (0, false), (1, true), (1, false)]).get
        ⟨i, hi⟩).kind = .state →
      ((tickTrace [(1, true), (0, true), (1, false), (0, false)]
          (phaseSchedule 2) [(0, true), (0, false), (1, true), (1, false)]).get
        ⟨j, hj⟩).kind = .mel → i < j) ∧
    (∀ a, a < 2 → ∀ b : Bool,
      TaskEvent.mk .metrics a b ∈ tickTrace [(1, true), (0, true), (1, false), (0, false)]
        (phaseSchedule 2) [(0, true), (0, false), (1, true), (1, false)] ∧
      TaskEvent.mk .state a b ∈ tickTrace [(1, true), (0, true), (1, false), (0, false)]
        (phaseSchedule 2) [(0, true), (0, false), (1, true), (1, false)] ∧
      TaskEvent.mk .mel a b ∈ tickTrace [(1, true), (0, true), (1, false), (0, false)]
        (phaseSchedule 2) [(0, true), (0, false), (1, true), (1, false)]) :=
  tick_phase_ordering 2 [(1, true), (0, true), (1, false), (0, false)]
    (phaseSchedule 2) [(0, true), (0, false), (1, true), (1, false)]
    (by decide) (by decide) (by decide)

end ESeriesCollector
